import Mathlib

/-!
Verification development for the AvisosAEMET microservice (two JavaScript
source files: the caching server `server.js` and the per-request service
`server.js.txt`).  The JavaScript values flowing through the system (the
trees produced by `fast-xml-parser`, the JSON responses) are modelled by the
inductive type `JVal`; the CAP parser, the zone matcher, the zone indexer,
the disk persistence layer and the refresh/query operations are translated
function by function.  External collaborators (the HTTP transport, the tar
extractor, the XML parsing library) appear as interface data: a tar entry
carries the parse tree of its decoded content, and the per-area fetch is a
parameter of the refresh operation.
-/

set_option autoImplicit false

namespace Aemet

/-- A JavaScript value, as produced by `fast-xml-parser` and as assembled by
the service when it builds JSON responses.  `jnull` models both `null` and
`undefined` (the source only ever distinguishes them through `??` and `||`,
which treat them alike). -/
inductive JVal where
  | jnull : JVal
  | jbool : Bool → JVal
  | jnum : Int → JVal
  | jstr : String → JVal
  | jarr : List JVal → JVal
  | jobj : List (String × JVal) → JVal
  deriving Repr

namespace JVal

/-- Property access `x?.k`: field lookup on objects, `undefined` (here
`jnull`) on anything else or when the field is missing. -/
def jGet : JVal → String → JVal
  | jobj fs, k => ((fs.find? (fun p => p.1 = k)).map (fun p => p.2)).getD jnull
  | _, _ => jnull

/-- JavaScript falsiness for the values that occur in this program:
`null`/`undefined`, `""`, `0` and `false` are falsy. -/
def isFalsy : JVal → Bool
  | jnull => true
  | jbool b => !b
  | jnum n => n == 0
  | jstr s => s.isEmpty
  | _ => false

/-- JavaScript `a || b`. -/
def jOr (a b : JVal) : JVal := if a.isFalsy then b else a

/-- Recogniser for `jnull` (JavaScript `x == null`, true exactly for `null`
and `undefined`). -/
def isJNull : JVal → Bool
  | jnull => true
  | _ => false

/-- JavaScript `a ?? b` (nullish coalescing; `jnull` covers both `null` and
`undefined`). -/
def jCoalesce (a b : JVal) : JVal := if isJNull a then b else a

/-- `asArray` from both source files:
`Array.isArray(x) ? x : (x == null ? [] : [x])`. -/
def asArray : JVal → List JVal
  | jarr l => l
  | jnull => []
  | v => [v]

mutual

/-- JavaScript `String(x)` for the values this program stringifies
(geocode values and category entries: strings and the numbers that
`fast-xml-parser` produces for digit-only text). -/
def jToString : JVal → String
  | jnull => "null"
  | jbool b => if b then "true" else "false"
  | jnum n => toString n
  | jstr s => s
  | jarr l => String.intercalate "," (jToStringList l)
  | jobj _ => "[object Object]"

def jToStringList : List JVal → List String
  | [] => []
  | v :: vs => jToString v :: jToStringList vs

end

/-- `String(x || '')` as applied to geocode values: falsy values become the
empty string. -/
def jValOrEmpty (v : JVal) : String := if v.isFalsy then "" else jToString v

end JVal

open JVal

/-- Whether a character list starts with another. -/
def charsStartWith : List Char → List Char → Bool
  | _, [] => true
  | [], _ :: _ => false
  | c :: cs, d :: ds => c = d && charsStartWith cs ds

/-- Whether a character list contains another as a contiguous run. -/
def charsContain : List Char → List Char → Bool
  | [], sub => sub.isEmpty
  | c :: rest, sub => charsStartWith (c :: rest) sub || charsContain rest sub

/-- JavaScript `s.includes(sub)` on strings. -/
def strIncludes (s sub : String) : Bool :=
  charsContain s.data sub.data

/-- JavaScript `s.toLowerCase()` for the ASCII names this program
lowercases. -/
def strToLower (s : String) : String :=
  String.mk (s.data.map Char.toLower)

/-- JavaScript `s.endsWith(suf)`. -/
def strEndsWith (s suf : String) : Bool :=
  decide (suf.data.length ≤ s.data.length) &&
    s.data.drop (s.data.length - suf.data.length) == suf.data

-- ------------------ CAP parse result model (both files) ------------------

/-- A `{name, value}` pair as built for `eventCode` entries. -/
structure NameValue where
  name : JVal
  value : JVal
  deriving Repr

/-- A `{valueName, value}` pair as built for `parameter` and `geocode`
entries. -/
structure ValueNamed where
  valueName : JVal
  value : JVal
  deriving Repr

/-- One parsed `<area>` block. -/
structure AreaBlock where
  areaDesc : JVal
  altitude : JVal
  ceiling : JVal
  polygons : List String
  circles : List String
  geocodes : List ValueNamed
  deriving Repr

/-- One parsed `<info>` block. -/
structure InfoBlock where
  language : JVal
  category : List String
  event : JVal
  responseType : List String
  urgency : JVal
  severity : JVal
  certainty : JVal
  effective : JVal
  onset : JVal
  expires : JVal
  headline : JVal
  description : JVal
  instruction : JVal
  web : JVal
  contact : JVal
  parameters : List ValueNamed
  eventCode : List NameValue
  areas : List AreaBlock
  deriving Repr

/-- The parsed `<alert>` header. -/
structure Header where
  identifier : JVal
  sender : JVal
  sent : JVal
  status : JVal
  msgType : JVal
  scope : JVal
  deriving Repr

/-- One parsed CAP alert: header plus ordered `<info>` blocks. -/
structure ParsedAlert where
  header : Header
  info : List InfoBlock
  deriving Repr

-- ------------------ parseCapXml (identical in both files) ----------------

/-- The geocode mapper inside `parseCapXml`:
`{valueName: g?.valueName ?? g?.['@_valueName'] ?? null, value: g?.value ?? g?.['#text'] ?? null}`. -/
def parseGeocode (g : JVal) : ValueNamed :=
  { valueName := jCoalesce (g.jGet "valueName") (g.jGet "@_valueName")
  , value := jCoalesce (g.jGet "value") (g.jGet "#text") }

/-- The parameter mapper inside `parseCapXml`:
`{valueName: p?.valueName ?? p?.['@_valueName'] ?? p?.name ?? null, value: p?.value ?? p?.['#text'] ?? null}`. -/
def parseParamNode (p : JVal) : ValueNamed :=
  { valueName := jCoalesce (jCoalesce (p.jGet "valueName") (p.jGet "@_valueName")) (p.jGet "name")
  , value := jCoalesce (p.jGet "value") (p.jGet "#text") }

/-- The eventCode mapper inside `parseCapXml`. -/
def parseEventCodeNode (ec : JVal) : NameValue :=
  { name := jCoalesce (ec.jGet "name") (ec.jGet "@_name")
  , value := jCoalesce (ec.jGet "value") (ec.jGet "#text") }

/-- The area mapper inside `parseCapXml`. -/
def parseAreaNode (a : JVal) : AreaBlock :=
  { areaDesc := jCoalesce (a.jGet "areaDesc") jnull
  , altitude := jCoalesce (a.jGet "altitude") jnull
  , ceiling := jCoalesce (a.jGet "ceiling") jnull
  , polygons := jToStringList (asArray (a.jGet "polygon"))
  , circles := jToStringList (asArray (a.jGet "circle"))
  , geocodes := (asArray (a.jGet "geocode")).map parseGeocode }

/-- The info mapper inside `parseCapXml`. -/
def parseInfoNode (info : JVal) : InfoBlock :=
  { language := jCoalesce (info.jGet "language") jnull
  , category := jToStringList (asArray (info.jGet "category"))
  , event := jCoalesce (info.jGet "event") jnull
  , responseType := jToStringList (asArray (info.jGet "responseType"))
  , urgency := jCoalesce (info.jGet "urgency") jnull
  , severity := jCoalesce (info.jGet "severity") jnull
  , certainty := jCoalesce (info.jGet "certainty") jnull
  , effective := jCoalesce (info.jGet "effective") jnull
  , onset := jCoalesce (info.jGet "onset") jnull
  , expires := jCoalesce (info.jGet "expires") jnull
  , headline := jCoalesce (info.jGet "headline") jnull
  , description := jCoalesce (info.jGet "description") jnull
  , instruction := jCoalesce (info.jGet "instruction") jnull
  , web := jCoalesce (info.jGet "web") jnull
  , contact := jCoalesce (info.jGet "contact") jnull
  , parameters := (asArray (info.jGet "parameter")).map parseParamNode
  , eventCode := (asArray (info.jGet "eventCode")).map parseEventCodeNode
  , areas := (asArray (info.jGet "area")).map parseAreaNode }

/-- The alert mapper inside `parseCapXml`. -/
def parseAlertNode (alert : JVal) : ParsedAlert :=
  { header :=
      { identifier := jCoalesce (alert.jGet "identifier") jnull
      , sender := jCoalesce (alert.jGet "sender") jnull
      , sent := jCoalesce (alert.jGet "sent") jnull
      , status := jCoalesce (alert.jGet "status") jnull
      , msgType := jCoalesce (alert.jGet "msgType") jnull
      , scope := jCoalesce (alert.jGet "scope") jnull }
  , info := (asArray (alert.jGet "info")).map parseInfoNode }

/-- `parseCapXml` applied to the tree the XML library returned for a
document: `asArray(root?.alert || root?.['cap:alert']).map(...)`. -/
def parseCapXml (root : JVal) : List ParsedAlert :=
  (asArray (jOr (root.jGet "alert") (root.jGet "cap:alert"))).map parseAlertNode

-- ------------------ Per-request matcher (server.js.txt) ------------------

/-- `/^\d{6}$/.test(z)`: exactly six decimal digits. -/
def isSixDigits (z : String) : Bool :=
  z.length = 6 && z.data.all Char.isDigit

/-- `fileMatchesZonaByName` from `server.js.txt`: `fileName.includes(zona)`. -/
def fileMatchesZonaByName (fileName zona : String) : Bool :=
  strIncludes fileName zona

/-- `alertHasZonaByGeocode` from `server.js.txt`: some geocode value
(anywhere in the alert's area blocks) contains the zone code, via
`String(g.value || '').includes(zona)`. -/
def alertHasZonaByGeocode (pa : ParsedAlert) (zona : String) : Bool :=
  pa.info.any fun inf => inf.areas.any fun ar => ar.geocodes.any fun g =>
    strIncludes (jValOrEmpty g.value) zona

/-- One tar entry as handed to the request handler: its name, size, digest,
decoded text, and the tree the XML library produces for that text (the tar
extractor, the text decoding and the XML library are external
collaborators; the handler consumes exactly these five pieces). -/
structure TarEntry where
  name : String
  size : Nat
  sha1 : String
  xml : String
  root : JVal
  deriving Repr

/-- One `ficheros` inventory record of the per-request response. -/
structure Fichero where
  name : String
  size : Nat
  sha1 : String
  matched_by : Option String
  deriving Repr, DecidableEq

/-- One `avisos` record of the per-request response.  `matched_by` is
`none` when the handler never set the property (tar branch), and
`some m` when the raw-document branch set it to `m` (where `m` is
`some "geocode"` or `none` for JavaScript `null`). -/
structure Aviso where
  file : String
  header : Header
  info : List InfoBlock
  raw_xml : String
  matched_by : Option (Option String)
  deriving Repr

/-- The inventory record built for one entry in the tar branch. -/
def tarFichero (zona : String) (ent : TarEntry) : Fichero :=
  { name := ent.name, size := ent.size, sha1 := ent.sha1
  , matched_by := if fileMatchesZonaByName ent.name zona then some "file_name" else none }

/-- The aviso record `{ file: e.name, ...pa, raw_xml: xml }` built in the
tar branch (no `matched_by` property). -/
def tarAviso (ent : TarEntry) (pa : ParsedAlert) : Aviso :=
  { file := ent.name, header := pa.header, info := pa.info, raw_xml := ent.xml
  , matched_by := none }

/-- `const ff = ficheros.find(x => x.name === e.name); if (ff && !ff.matched_by) ff.matched_by = 'geocode';` -/
def markGeocode : List Fichero → String → List Fichero
  | [], _ => []
  | f :: rest, nm =>
    if f.name = nm then
      (if f.matched_by = none then { f with matched_by := some "geocode" } else f) :: rest
    else
      f :: markGeocode rest nm

/-- The entry filter for strategy 1:
`entries.filter(e => fileMatchesZonaByName(e.name, zona) && e.name.toLowerCase().endsWith('.xml'))`. -/
def objetivosOf (entries : List TarEntry) (zona : String) : List TarEntry :=
  entries.filter fun e => fileMatchesZonaByName e.name zona && strEndsWith (strToLower e.name) ".xml"

/-- The tar branch of `GET /avisos` in `server.js.txt`: inventory for every
entry, then strategy 1 (filename match over `.xml` entries); only when that
yields zero entries, strategy 2 (parse every `.xml` entry and keep alerts
matching by geocode, re-marking their inventory records). -/
def avisosTar (entries : List TarEntry) (zona : String) : List Fichero × List Aviso :=
  let ficheros := entries.map (tarFichero zona)
  let objetivos := objetivosOf entries zona
  if objetivos.isEmpty then
    entries.foldl
      (fun acc e =>
        if !(strEndsWith (strToLower e.name) ".xml") then acc
        else
          (parseCapXml e.root).foldl
            (fun acc2 pa =>
              if alertHasZonaByGeocode pa zona then
                (markGeocode acc2.1 e.name, acc2.2 ++ [tarAviso e pa])
              else acc2)
            acc)
      (ficheros, [])
  else
    (ficheros, objetivos.flatMap fun e => (parseCapXml e.root).map (tarAviso e))

/-- The aviso record built in the raw-document branch:
`{ file: 'datos.xml', ...pa, raw_xml: xml, matched_by: matched ? 'geocode' : null }`. -/
def rawAviso (xml zona : String) (pa : ParsedAlert) : Aviso :=
  { file := "datos.xml", header := pa.header, info := pa.info, raw_xml := xml
  , matched_by := some (if alertHasZonaByGeocode pa zona then some "geocode" else none) }

/-- The raw-document branch of `GET /avisos` in `server.js.txt` (tar
extraction failed): parse the whole buffer as one XML document and emit
every parsed alert, annotated with `matched_by`. -/
def avisosRaw (root : JVal) (xml zona : String) : List Aviso :=
  (parseCapXml root).map (rawAviso xml zona)

-- ------------------ Cache server data model (server.js) ------------------

/-- One aggregated alert of the cache:
`{ area, file: <name>, ...pa, raw_xml: xml }` as pushed by
`fetchAreaAlerts`. -/
structure CacheAlert where
  area : String
  file : String
  header : Header
  info : List InfoBlock
  raw_xml : String
  deriving Repr

/-- One file-inventory record of the cache.  Successful entries carry a
digest and no error; per-area failures are recorded as
`{ area, name: '[ERROR]', size: 0, sha1: null, error: String(e.message || e) }`. -/
structure CacheFile where
  area : String
  name : String
  size : Nat
  sha1 : Option String
  error : Option String
  deriving Repr, DecidableEq

/-- The zone index: a JavaScript `Map` in insertion order, from a 6-digit
zone code to the ordered list of alerts pushed for that zone. -/
abbrev ZonaIndex : Type := List (String × List CacheAlert)

/-- `byZona.get(z)` (`undefined` when absent, modelled as `none`). -/
def mapGet (m : ZonaIndex) (z : String) : Option (List CacheAlert) :=
  (m.find? (fun p => p.1 = z)).map (fun p => p.2)

/-- The in-memory cache object of `server.js`. -/
structure Cache where
  version : String
  generatedAt : Option String
  areas : List String
  files : List CacheFile
  alerts : List CacheAlert
  byZona : ZonaIndex
  deriving Repr

-- ------------------ buildIndexes (server.js) -----------------------------

/-- Fuel-driven scanner behind `sixDigitRuns` (the fuel only forces
structural recursion; `sixDigitRuns` supplies enough of it). -/
def sixDigitRunsAux : Nat → List Char → List String
  | 0, _ => []
  | _, [] => []
  | fuel + 1, c :: rest =>
    if ((c :: rest).take 6).length = 6 && ((c :: rest).take 6).all Char.isDigit then
      String.mk ((c :: rest).take 6) :: sixDigitRunsAux fuel ((c :: rest).drop 6)
    else
      sixDigitRunsAux fuel rest

/-- The matches of `/(\d{6})/g` on a character list: scanning left to
right, a run of six decimal digits is taken and the scan resumes after it,
otherwise the scan advances one character. -/
def sixDigitRuns (l : List Char) : List String := sixDigitRunsAux l.length l

/-- `s.match(/(\d{6})/g)` (with `null` and `[]` identified). -/
def matchSixRuns (s : String) : List String := sixDigitRuns s.data

/-- `new Set(m)` iterated: deduplication keeping the first occurrence of
each element, in order. -/
def dedupFirst (l : List String) : List String :=
  l.foldl (fun acc z => if z ∈ acc then acc else acc ++ [z]) []

/-- The `add` closure of `buildIndexes`: ignore keys that are not exactly
six digits, append the alert to the key's list (creating the key at the end
of the map on first use). -/
def addZona (m : ZonaIndex) (zona : String) (a : CacheAlert) : ZonaIndex :=
  if !isSixDigits zona then m
  else if m.any (fun p => p.1 = zona) then
    m.map (fun p => if p.1 = zona then (p.1, p.2 ++ [a]) else p)
  else
    m ++ [(zona, [a])]

/-- The zone codes contributed by one alert's file name: every 6-digit run
in `a.file`, deduplicated. -/
def fileZonas (a : CacheAlert) : List String := dedupFirst (matchSixRuns a.file)

/-- `buildIndexes` from `server.js`: for each alert, add it under every
6-digit run of its file name, then under every 6-digit run of each geocode
value of each area of each info block. -/
def buildIndexes (allAlerts : List CacheAlert) : ZonaIndex :=
  allAlerts.foldl
    (fun m a =>
      let m1 := (fileZonas a).foldl (fun m z => addZona m z a) m
      a.info.foldl
        (fun m2 inf =>
          inf.areas.foldl
            (fun m3 ar =>
              ar.geocodes.foldl
                (fun m4 g =>
                  (dedupFirst (matchSixRuns (jValOrEmpty g.value))).foldl
                    (fun m5 z => addZona m5 z a) m4)
                m3)
            m2)
        m1)
    []

-- ------------------ Persistence (server.js) ------------------------------

/-- The serializable projection written by `saveCacheToDisk`: exactly the
fields `version`, `generatedAt`, `areas`, `files`, `alerts` — the `byZona`
index is deliberately absent (`JSON.stringify` of the listed fields; the
`Map` is never serialized). -/
structure DiskCache where
  version : String
  generatedAt : Option String
  areas : List String
  files : List CacheFile
  alerts : List CacheAlert
  deriving Repr

/-- `saveCacheToDisk`: the object written to the cache file.  JSON
round-tripping of these plain records is the identity, so the written JSON
is modelled by the projection itself. -/
def saveCacheToDisk (c : Cache) : DiskCache :=
  { version := c.version, generatedAt := c.generatedAt, areas := c.areas
  , files := c.files, alerts := c.alerts }

/-- `loadCacheFromDisk` applied to a well-formed persisted object: rebuild
`byZona` from the persisted alert list with `buildIndexes` and install the
result (the defaults for missing fields do not apply to a well-formed
object). -/
def loadCacheFromDisk (d : DiskCache) : Cache :=
  { version := d.version, generatedAt := d.generatedAt, areas := d.areas
  , files := d.files, alerts := d.alerts, byZona := buildIndexes d.alerts }

-- ------------------ Refresh (server.js) ----------------------------------

/-- The module state of `server.js`: the `cache` variable, the
`lastGoodCache` variable, and the content of the cache file on disk
(`none` when absent or unreadable). -/
structure ServerState where
  cache : Cache
  lastGoodCache : Option Cache
  disk : Option DiskCache
  deriving Repr

/-- What `fetchAreaAlerts` produces for one area (its `metadatos` are
dropped by the refresh loop, which destructures only `files` and
`alerts`). -/
structure AreaResult where
  files : List CacheFile
  alerts : List CacheAlert
  deriving Repr

/-- The value returned by a successful `refreshCache` (the elapsed-time
field is environmental and not modelled). -/
structure RefreshResult where
  areasTried : Nat
  filesCount : Nat
  alertsCount : Nat
  deriving Repr, DecidableEq

/-- `refreshCache` from `server.js`.  `fetchArea` stands for the network
round of `fetchAreaAlerts`; a thrown per-area error is its `error` case.
The function throws only from `requireApiKey`; each area's failure is
caught and recorded as an `[ERROR]` inventory entry, and the new cache is
committed as both `cache` and `lastGoodCache` and persisted, regardless of
how many areas produced anything.  `refreshStep` is the body of the
per-area `try`/`catch` loop. -/
def refreshStep (fetchArea : String → Except String AreaResult)
    (acc : List CacheFile × List CacheAlert) (area : String) :
    List CacheFile × List CacheAlert :=
  match fetchArea area with
  | .ok r => (acc.1 ++ r.files, acc.2 ++ r.alerts)
  | .error e =>
    (acc.1 ++ [{ area := area, name := "[ERROR]", size := 0, sha1 := none, error := some e }], acc.2)

def refreshCache (apiKey : String) (areas : List String)
    (fetchArea : String → Except String AreaResult) (now : String)
    (st : ServerState) : Except String RefreshResult × ServerState :=
  if apiKey.isEmpty then
    (.error "Falta AEMET_API_KEY en variables de entorno.", st)
  else
    let acc := areas.foldl (refreshStep fetchArea) ([], [])
    let newCache : Cache :=
      { version := st.cache.version, generatedAt := some now, areas := areas
      , files := acc.1, alerts := acc.2, byZona := buildIndexes acc.2 }
    (.ok { areasTried := areas.length, filesCount := acc.1.length, alertsCount := acc.2.length },
     { cache := newCache, lastGoodCache := some newCache, disk := some (saveCacheToDisk newCache) })

-- ------------------ Query (server.js) ------------------------------------

/-- JSON encoding of a nullable string. -/
def optStrJ : Option String → JVal
  | some s => .jstr s
  | none => .jnull

/-- JSON encoding of a parsed alert header (its fields are already
JavaScript values). -/
def headerJ (h : Header) : JVal :=
  .jobj [ ("identifier", h.identifier), ("sender", h.sender), ("sent", h.sent)
        , ("status", h.status), ("msgType", h.msgType), ("scope", h.scope) ]

/-- JSON encoding of a `{name, value}` pair. -/
def nameValueJ (nv : NameValue) : JVal :=
  .jobj [("name", nv.name), ("value", nv.value)]

/-- JSON encoding of a `{valueName, value}` pair. -/
def valueNamedJ (vn : ValueNamed) : JVal :=
  .jobj [("valueName", vn.valueName), ("value", vn.value)]

/-- JSON encoding of an area block. -/
def areaBlockJ (a : AreaBlock) : JVal :=
  .jobj [ ("areaDesc", a.areaDesc), ("altitude", a.altitude), ("ceiling", a.ceiling)
        , ("polygons", .jarr (a.polygons.map JVal.jstr))
        , ("circles", .jarr (a.circles.map JVal.jstr))
        , ("geocodes", .jarr (a.geocodes.map valueNamedJ)) ]

/-- JSON encoding of an info block. -/
def infoBlockJ (i : InfoBlock) : JVal :=
  .jobj [ ("language", i.language)
        , ("category", .jarr (i.category.map JVal.jstr))
        , ("event", i.event)
        , ("responseType", .jarr (i.responseType.map JVal.jstr))
        , ("urgency", i.urgency), ("severity", i.severity), ("certainty", i.certainty)
        , ("effective", i.effective), ("onset", i.onset), ("expires", i.expires)
        , ("headline", i.headline), ("description", i.description)
        , ("instruction", i.instruction), ("web", i.web), ("contact", i.contact)
        , ("parameters", .jarr (i.parameters.map valueNamedJ))
        , ("eventCode", .jarr (i.eventCode.map nameValueJ))
        , ("areas", .jarr (i.areas.map areaBlockJ)) ]

/-- JSON encoding of one cached alert as it appears in the `avisos` array
of the query response. -/
def cacheAlertJ (a : CacheAlert) : JVal :=
  .jobj [ ("area", .jstr a.area), ("file", .jstr a.file)
        , ("header", headerJ a.header)
        , ("info", .jarr (a.info.map infoBlockJ))
        , ("raw_xml", .jstr a.raw_xml) ]

/-- `GET /avisos` from `server.js`: validate the zone code, reload from
disk when the cache has no generation timestamp yet, pick the effective
cache (`cache.generatedAt ? cache : (lastGoodCache || cache)`), look the
zone up in `byZona` and answer
`{ query: { zona, last_success_at }, count, avisos }`. -/
def avisosQuery (zona : String) (st : ServerState) : Except String JVal × ServerState :=
  if !isSixDigits zona then
    (.error "Parámetro \"zona\" inválido. Debe ser 6 dígitos (p.ej. 614102).", st)
  else
    let st1 :=
      if st.cache.generatedAt.isNone then
        match st.disk with
        | some d =>
          let loaded := loadCacheFromDisk d
          { st with cache := loaded, lastGoodCache := some loaded }
        | none => st
      else st
    let effectiveCache :=
      if st1.cache.generatedAt.isSome then st1.cache else st1.lastGoodCache.getD st1.cache
    let list := (mapGet effectiveCache.byZona zona).getD []
    (.ok (.jobj
      [ ("query", .jobj [("zona", .jstr zona), ("last_success_at", optStrJ effectiveCache.generatedAt)])
      , ("count", .jnum list.length)
      , ("avisos", .jarr (list.map cacheAlertJ)) ]), st1)

-- ------------------ Text decoding (fetchJSONSmart, server.js) ------------

/-- Lower bound of the first continuation byte after a lead byte, per the
WHATWG UTF-8 decoder implemented by `Buffer.toString('utf8')`. -/
def contLo (b : Nat) : Nat :=
  if b = 0xE0 then 0xA0 else if b = 0xF0 then 0x90 else 0x80

/-- Upper bound of the first continuation byte after a lead byte. -/
def contHi (b : Nat) : Nat :=
  if b = 0xED then 0x9F else if b = 0xF4 then 0x8F else 0xBF

/-- `buf.toString('utf8')` as a list of code points: the WHATWG UTF-8
decoder, which replaces each maximal invalid subpart with one U+FFFD and
resumes at the offending byte. -/
def decodeUtf8 : List Nat → List Nat
  | [] => []
  | b :: rest =>
    if b ≤ 0x7F then b :: decodeUtf8 rest
    else if 0xC2 ≤ b && b ≤ 0xDF then
      match rest with
      | [] => [0xFFFD]
      | b1 :: r1 =>
        if 0x80 ≤ b1 && b1 ≤ 0xBF then
          ((b - 0xC0) * 64 + (b1 - 0x80)) :: decodeUtf8 r1
        else 0xFFFD :: decodeUtf8 (b1 :: r1)
    else if 0xE0 ≤ b && b ≤ 0xEF then
      match rest with
      | [] => [0xFFFD]
      | b1 :: r1 =>
        if contLo b ≤ b1 && b1 ≤ contHi b then
          match r1 with
          | [] => [0xFFFD]
          | b2 :: r2 =>
            if 0x80 ≤ b2 && b2 ≤ 0xBF then
              ((b - 0xE0) * 4096 + (b1 - 0x80) * 64 + (b2 - 0x80)) :: decodeUtf8 r2
            else 0xFFFD :: decodeUtf8 (b2 :: r2)
        else 0xFFFD :: decodeUtf8 (b1 :: r1)
    else if 0xF0 ≤ b && b ≤ 0xF4 then
      match rest with
      | [] => [0xFFFD]
      | b1 :: r1 =>
        if contLo b ≤ b1 && b1 ≤ contHi b then
          match r1 with
          | [] => [0xFFFD]
          | b2 :: r2 =>
            if 0x80 ≤ b2 && b2 ≤ 0xBF then
              match r2 with
              | [] => [0xFFFD]
              | b3 :: r3 =>
                if 0x80 ≤ b3 && b3 ≤ 0xBF then
                  ((b - 0xF0) * 262144 + (b1 - 0x80) * 4096 + (b2 - 0x80) * 64 + (b3 - 0x80)) :: decodeUtf8 r3
                else 0xFFFD :: decodeUtf8 (b3 :: r3)
            else 0xFFFD :: decodeUtf8 (b2 :: r2)
        else 0xFFFD :: decodeUtf8 (b1 :: r1)
    else 0xFFFD :: decodeUtf8 rest

/-- `buf.toString('latin1')` as a list of code points: each byte maps to
the code point of the same value. -/
def decodeLatin1 (bytes : List Nat) : List Nat := bytes

/-- The `bads` counter of `fetchJSONSmart`:
`(s.match(/�/g) || []).length`. -/
def countFFFD (cps : List Nat) : Nat := cps.count 0xFFFD

/-- The content-type test of `fetchJSONSmart`:
`ct.includes('iso-8859') || ct.includes('latin1')` on the lowercased
header. -/
def hintIsLatin (contentType : String) : Bool :=
  strIncludes (strToLower contentType) "iso-8859" || strIncludes (strToLower contentType) "latin1"

/-- `if (text.charCodeAt(0) === 0xfeff) text = text.slice(1)`. -/
def stripBom : List Nat → List Nat
  | [] => []
  | c :: r => if c = 0xFEFF then r else c :: r

/-- The decoding step of `fetchJSONSmart`: Latin-1 unconditionally when the
content type names a Latin-1/ISO-8859 family encoding, otherwise the
candidate with strictly fewer replacement characters (ties go to UTF-8),
then BOM stripping. -/
def smartDecodeText (bytes : List Nat) (contentType : String) : List Nat :=
  if hintIsLatin contentType then
    stripBom (decodeLatin1 bytes)
  else
    stripBom
      (if countFFFD (decodeLatin1 bytes) < countFFFD (decodeUtf8 bytes) then
        decodeLatin1 bytes
      else
        decodeUtf8 bytes)

-- ------------------ Statement helpers ------------------------------------

/-- The file-inventory records one area contributes to a refresh: its own
files on success, the single `[ERROR]` marker entry on failure. -/
def areaFiles (fetchArea : String → Except String AreaResult) (area : String) : List CacheFile :=
  match fetchArea area with
  | .ok r => r.files
  | .error e => [{ area := area, name := "[ERROR]", size := 0, sha1 := none, error := some e }]

/-- The alerts one area contributes to a refresh: its own alerts on
success, none on failure. -/
def areaAlerts (fetchArea : String → Except String AreaResult) (area : String) : List CacheAlert :=
  match fetchArea area with
  | .ok r => r.alerts
  | .error _ => []

/-- Where a record of the `ficheros` inventory can come from: it is the
record built for one of the entries, either untouched or re-marked
`'geocode'` by strategy 2 (which only touches records whose marker was
`null`). -/
def ficheroOrigin (entries : List TarEntry) (zona : String) (f : Fichero) : Prop :=
  ∃ ent ∈ entries,
    f = tarFichero zona ent
    ∨ ((tarFichero zona ent).matched_by = none
        ∧ f = { tarFichero zona ent with matched_by := some "geocode" })

-- ------------------ Concrete test data -----------------------------------

/-- The spec's scenario bundle document
`<alert><info><area><geocode><valueName>AEMET</valueName><value>614102</value></geocode></area></info></alert>`. -/
def capXmlText : String :=
  "<alert><info><area><geocode><valueName>AEMET</valueName><value>614102</value></geocode></area></info></alert>"

/-- The tree `fast-xml-parser` produces for `capXmlText` (digit-only text
becomes a number under the parser's default value parsing). -/
def capRoot : JVal :=
  .jobj [("alert", .jobj [("info", .jobj [("area", .jobj [("geocode",
    .jobj [("valueName", .jstr "AEMET"), ("value", .jnum 614102)])])])])]

/-- The scenario bundle's single entry `Z_CAP_C_LEMM_614102_x.xml`. -/
def scenarioEntry : TarEntry :=
  { name := "Z_CAP_C_LEMM_614102_x.xml", size := 107, sha1 := "a94a8fe5"
  , xml := capXmlText, root := capRoot }

/-- A non-XML entry whose name contains the zone code. -/
def txtEntry : TarEntry :=
  { name := "614102.txt", size := 3, sha1 := "d0b425e0", xml := "hi", root := .jnull }

/-- An all-null alert header (every optional field absent). -/
def emptyHeader : Header :=
  { identifier := .jnull, sender := .jnull, sent := .jnull
  , status := .jnull, msgType := .jnull, scope := .jnull }

/-- The cached alert produced for the scenario bundle by the refresh path
of `server.js` (area `61`, file `Z_CAP_C_LEMM_614102_x.xml`). -/
def alertA : CacheAlert :=
  { area := "61", file := "Z_CAP_C_LEMM_614102_x.xml"
  , header := (parseAlertNode (capRoot.jGet "alert")).header
  , info := (parseAlertNode (capRoot.jGet "alert")).info
  , raw_xml := capXmlText }

/-- The inventory record for the scenario bundle's entry. -/
def file61 : CacheFile :=
  { area := "61", name := "Z_CAP_C_LEMM_614102_x.xml", size := 107
  , sha1 := some "a94a8fe5", error := none }

/-- The bootstrap cache value of `server.js` (before any refresh). -/
def emptyCache : Cache :=
  { version := "1.1", generatedAt := none, areas := [], files := [], alerts := [], byZona := [] }

/-- The bootstrap module state: empty cache, no last good cache, no cache
file on disk. -/
def st0 : ServerState := { cache := emptyCache, lastGoodCache := none, disk := none }

/-- An area-61 alert whose zone comes from the file name alone. -/
def alert61 : CacheAlert :=
  { area := "61", file := "Z_CAP_C_LEMM_614102_x.xml"
  , header := emptyHeader, info := [], raw_xml := "" }

/-- A fetch in which area 61 delivers one bundle entry and one alert. -/
def fetchOk61 : String → Except String AreaResult :=
  fun _ => .ok { files := [file61], alerts := [alert61] }

/-- A fetch in which every area's discovery call fails (e.g. invalid
credentials: HTTP 401 on the catalog). -/
def fetchFail : String → Except String AreaResult :=
  fun area => .error ("HTTP 401 en https://opendata.aemet.es/opendata/api/avisos_cap/ultimoelaborado/area/" ++ area)

/-- The module state after one successful refresh of area 61. -/
def st1 : ServerState :=
  (refreshCache "valid-key" ["61"] fetchOk61 "2025-06-01T00:00:00Z" st0).2

/-- Three alerts for area 62, as in the multi-area scenario. -/
def area62Alerts : List CacheAlert :=
  [ { area := "62", file := "Z_CAP_C_LEMM_624101_a.xml", header := emptyHeader, info := [], raw_xml := "" }
  , { area := "62", file := "Z_CAP_C_LEMM_624102_b.xml", header := emptyHeader, info := [], raw_xml := "" }
  , { area := "62", file := "Z_CAP_C_LEMM_624103_c.xml", header := emptyHeader, info := [], raw_xml := "" } ]

/-- Inventory records for area 62's bundle. -/
def area62Files : List CacheFile :=
  [ { area := "62", name := "Z_CAP_C_LEMM_624101_a.xml", size := 90, sha1 := some "f1", error := none }
  , { area := "62", name := "Z_CAP_C_LEMM_624102_b.xml", size := 91, sha1 := some "f2", error := none }
  , { area := "62", name := "Z_CAP_C_LEMM_624103_c.xml", size := 92, sha1 := some "f3", error := none } ]

/-- The multi-area scenario fetch: area 61's discovery returns non-2xx,
area 62 succeeds with 3 alerts. -/
def fetchScenario : String → Except String AreaResult :=
  fun area =>
    if area = "62" then .ok { files := area62Files, alerts := area62Alerts }
    else .error ("HTTP 404 en https://opendata.aemet.es/opendata/api/avisos_cap/ultimoelaborado/area/" ++ area)

-- ------------------ Helper lemmas ----------------------------------------

theorem foldl_preserves {α β : Type} (P : β → Prop) (f : β → α → β)
    (h : ∀ b a, P b → P (f b a)) :
    ∀ (l : List α) (b : β), P b → P (l.foldl f b) := by
  intro l
  induction l with
  | nil => intro b hb; exact hb
  | cons x xs ih => intro b hb; exact ih _ (h b x hb)

theorem refresh_foldl_eq (fetchArea : String → Except String AreaResult) :
    ∀ (areas : List String) (acc : List CacheFile × List CacheAlert),
      areas.foldl (refreshStep fetchArea) acc
        = (acc.1 ++ areas.flatMap (areaFiles fetchArea),
           acc.2 ++ areas.flatMap (areaAlerts fetchArea)) := by
  intro areas
  induction areas with
  | nil => intro acc; simp
  | cons x xs ih =>
    intro acc
    rw [List.foldl_cons, ih]
    cases hfa : fetchArea x <;>
      simp [refreshStep, areaFiles, areaAlerts, hfa, List.append_assoc]

theorem markGeocode_mem (fs : List Fichero) (nm : String) :
    ∀ f ∈ markGeocode fs nm,
      f ∈ fs ∨ ∃ g ∈ fs, g.matched_by = none ∧ f = { g with matched_by := some "geocode" } := by
  induction fs with
  | nil => intro f hf; simp [markGeocode] at hf
  | cons g rest ih =>
    intro f hf
    simp only [markGeocode] at hf
    by_cases hgn : g.name = nm
    · rw [if_pos hgn] at hf
      by_cases hmb : g.matched_by = none
      · rw [if_pos hmb] at hf
        rcases List.mem_cons.mp hf with h1 | h2
        · exact Or.inr ⟨g, List.mem_cons_self g rest, hmb, h1⟩
        · exact Or.inl (List.mem_cons_of_mem g h2)
      · rw [if_neg hmb] at hf
        exact Or.inl hf
    · rw [if_neg hgn] at hf
      rcases List.mem_cons.mp hf with h1 | h2
      · exact Or.inl (h1 ▸ List.mem_cons_self g rest)
      · rcases ih f h2 with h | ⟨g2, hg2, hmb2, heq⟩
        · exact Or.inl (List.mem_cons_of_mem g h)
        · exact Or.inr ⟨g2, List.mem_cons_of_mem g hg2, hmb2, heq⟩

theorem avisosTar_fichero_origin (entries : List TarEntry) (zona : String) :
    ∀ f ∈ (avisosTar entries zona).1, ficheroOrigin entries zona f := by
  have base : ∀ f ∈ entries.map (tarFichero zona), ficheroOrigin entries zona f := by
    intro f hf
    rcases List.mem_map.mp hf with ⟨ent, hent, rfl⟩
    exact ⟨ent, hent, Or.inl rfl⟩
  by_cases he : (objetivosOf entries zona).isEmpty
  · simp only [avisosTar, he, if_pos]
    refine fun f hf =>
      (foldl_preserves (fun acc : List Fichero × List Aviso => ∀ f ∈ acc.1, ficheroOrigin entries zona f)
        _ ?_ entries (entries.map (tarFichero zona), []) base) f hf
    intro acc e hacc
    by_cases hx : strEndsWith (strToLower e.name) ".xml"
    · simp only [hx, Bool.not_true, Bool.false_eq_true, if_false]
      refine foldl_preserves
        (fun acc : List Fichero × List Aviso => ∀ f ∈ acc.1, ficheroOrigin entries zona f)
        _ ?_ (parseCapXml e.root) acc hacc
      intro acc2 pa hacc2
      by_cases hm : alertHasZonaByGeocode pa zona
      · simp only [hm, if_pos]
        intro f hf
        rcases markGeocode_mem acc2.1 e.name f hf with h | ⟨g, hg, hgnone, rfl⟩
        · exact hacc2 f h
        · rcases hacc2 g hg with ⟨ent, hent, h | ⟨_, h⟩⟩
          · exact ⟨ent, hent, Or.inr ⟨h ▸ hgnone, by rw [h]⟩⟩
          · rw [h] at hgnone
            simp at hgnone
      · simp only [hm, if_neg, Bool.false_eq_true]
        exact hacc2
    · simp only [hx, Bool.not_false, if_true]
      exact hacc
  · simp only [avisosTar, he, Bool.false_eq_true, if_false]
    exact base

theorem avisosTar_marker_iff (entries : List TarEntry) (zona : String) :
    ∀ f ∈ (avisosTar entries zona).1,
      (f.matched_by = some "file_name" ↔ fileMatchesZonaByName f.name zona = true) := by
  intro f hf
  rcases avisosTar_fichero_origin entries zona f hf with ⟨ent, _, h | ⟨hnone, h⟩⟩
  · subst h
    unfold tarFichero
    by_cases hm : fileMatchesZonaByName ent.name zona <;> simp [hm]
  · subst h
    unfold tarFichero at hnone ⊢
    by_cases hm : fileMatchesZonaByName ent.name zona
    · simp [hm] at hnone
    · simp [hm]

theorem avisosTar_nonempty_eq (entries : List TarEntry) (zona : String)
    (hne : (objetivosOf entries zona).isEmpty = false) :
    avisosTar entries zona
      = (entries.map (tarFichero zona),
         (objetivosOf entries zona).flatMap fun e => (parseCapXml e.root).map (tarAviso e)) := by
  simp [avisosTar, hne]

theorem addZona_good (m : ZonaIndex) (z : String) (a : CacheAlert)
    (h : ∀ p ∈ m, isSixDigits p.1 = true ∧ p.2 ≠ []) :
    ∀ p ∈ addZona m z a, isSixDigits p.1 = true ∧ p.2 ≠ [] := by
  unfold addZona
  by_cases hz : isSixDigits z
  · simp only [hz, Bool.not_true, Bool.false_eq_true, if_false]
    by_cases hmem : m.any (fun p => p.1 = z)
    · simp only [hmem, if_pos]
      intro p hp
      rcases List.mem_map.mp hp with ⟨q, hq, rfl⟩
      by_cases hqz : q.1 = z
      · simp only [hqz, if_pos]
        exact ⟨hqz ▸ (h q hq).1, by simp⟩
      · simp only [hqz, if_neg, Bool.false_eq_true]
        exact h q hq
    · simp only [hmem, Bool.false_eq_true, if_false]
      intro p hp
      rcases List.mem_append.mp hp with h1 | h2
      · exact h p h1
      · have : p = (z, [a]) := by simpa using h2
        subst this
        exact ⟨hz, by simp⟩
  · have hz' : isSixDigits z = false := by simpa using hz
    simp only [hz', Bool.not_false, if_true]
    exact h

theorem addZona_nokey (m : ZonaIndex) (z0 z : String) (a : CacheAlert)
    (hz0 : isSixDigits z0 = false)
    (h : ∀ p ∈ m, p.1 ≠ z0) :
    ∀ p ∈ addZona m z a, p.1 ≠ z0 := by
  unfold addZona
  by_cases hz : isSixDigits z
  · simp only [hz, Bool.not_true, Bool.false_eq_true, if_false]
    by_cases hmem : m.any (fun p => p.1 = z)
    · simp only [hmem, if_pos]
      intro p hp
      rcases List.mem_map.mp hp with ⟨q, hq, rfl⟩
      by_cases hqz : q.1 = z
      · simp only [hqz, if_pos]
        intro hcontra
        exact h q hq (by simpa [hcontra] using hqz.symm ▸ hcontra)
      · simp only [hqz, if_neg, Bool.false_eq_true]
        exact h q hq
    · simp only [hmem, Bool.false_eq_true, if_false]
      intro p hp
      rcases List.mem_append.mp hp with h1 | h2
      · exact h p h1
      · have : p = (z, [a]) := by simpa using h2
        subst this
        intro hcontra
        rw [show z = z0 from hcontra] at hz
        rw [hz0] at hz
        exact Bool.false_ne_true hz
  · have hz' : isSixDigits z = false := by simpa using hz
    simp only [hz', Bool.not_false, if_true]
    exact h

theorem buildIndexes_good (allAlerts : List CacheAlert) :
    ∀ p ∈ buildIndexes allAlerts, isSixDigits p.1 = true ∧ p.2 ≠ [] := by
  unfold buildIndexes
  refine foldl_preserves (fun m : ZonaIndex => ∀ p ∈ m, isSixDigits p.1 = true ∧ p.2 ≠ [])
    _ ?_ allAlerts [] (by simp)
  intro m a hm
  have h1 := foldl_preserves (fun m : ZonaIndex => ∀ p ∈ m, isSixDigits p.1 = true ∧ p.2 ≠ [])
    (fun m z => addZona m z a) (fun m z hp => addZona_good m z a hp) (fileZonas a) m hm
  exact foldl_preserves _ _
    (fun m2 inf hp2 => foldl_preserves _ _
      (fun m3 ar hp3 => foldl_preserves _ _
        (fun m4 g hp4 => foldl_preserves _ _
          (fun m5 z hp5 => addZona_good m5 z a hp5)
          (dedupFirst (matchSixRuns (jValOrEmpty g.value))) m4 hp4)
        ar.geocodes m3 hp3)
      inf.areas m2 hp2)
    a.info _ h1

theorem buildIndexes_nokey (allAlerts : List CacheAlert) (z0 : String)
    (hz0 : isSixDigits z0 = false) :
    ∀ p ∈ buildIndexes allAlerts, p.1 ≠ z0 := by
  unfold buildIndexes
  refine foldl_preserves (fun m : ZonaIndex => ∀ p ∈ m, p.1 ≠ z0)
    _ ?_ allAlerts [] (by simp)
  intro m a hm
  have h1 := foldl_preserves (fun m : ZonaIndex => ∀ p ∈ m, p.1 ≠ z0)
    (fun m z => addZona m z a) (fun m z hp => addZona_nokey m z0 z a hz0 hp) (fileZonas a) m hm
  exact foldl_preserves _ _
    (fun m2 inf hp2 => foldl_preserves _ _
      (fun m3 ar hp3 => foldl_preserves _ _
        (fun m4 g hp4 => foldl_preserves _ _
          (fun m5 z hp5 => addZona_nokey m5 z0 z a hz0 hp5)
          (dedupFirst (matchSixRuns (jValOrEmpty g.value))) m4 hp4)
        ar.geocodes m3 hp3)
      inf.areas m2 hp2)
    a.info _ h1

theorem mapGet_of_nokey (m : ZonaIndex) (z0 : String) (h : ∀ p ∈ m, p.1 ≠ z0) :
    mapGet m z0 = none := by
  unfold mapGet
  rw [List.find?_eq_none.mpr]
  · rfl
  · intro p hp
    simpa using h p hp

-- ------------------ Claims -----------------------------------------------

/-- C3: persisting a cache snapshot and loading it back yields a zone index
equal (same keys, same per-key ordered alert lists, same per-alert values)
to the index computed directly from the original in-memory alert list; the
persisted projection never contains the index (it is invariant under any
change of `byZona`), and loading always recomputes the index
deterministically from the persisted alert list. -/
theorem cache_roundtrip_index (c : Cache) :
    (loadCacheFromDisk (saveCacheToDisk c)).byZona = buildIndexes c.alerts
    ∧ (loadCacheFromDisk (saveCacheToDisk c)).alerts = c.alerts
    ∧ (∀ z : String, mapGet (loadCacheFromDisk (saveCacheToDisk c)).byZona z
        = mapGet (buildIndexes c.alerts) z)
    ∧ (∀ bz : ZonaIndex, saveCacheToDisk { c with byZona := bz } = saveCacheToDisk c)
    ∧ (∀ d : DiskCache, (loadCacheFromDisk d).byZona = buildIndexes d.alerts) :=
  ⟨rfl, rfl, fun _ => rfl, fun _ => rfl, fun _ => rfl⟩

/-- C9: every key of the zone index built by `buildIndexes` is a string of
exactly six decimal digits and maps to a non-empty alert list, and looking
up any string not of that form yields nothing. -/
theorem zone_index_keys_sixdigits (allAlerts : List CacheAlert) :
    (∀ p ∈ buildIndexes allAlerts, isSixDigits p.1 = true ∧ p.2 ≠ [])
    ∧ (∀ z : String, isSixDigits z = false → mapGet (buildIndexes allAlerts) z = none) :=
  ⟨buildIndexes_good allAlerts,
   fun z hz => mapGet_of_nokey _ z (buildIndexes_nokey allAlerts z hz)⟩

/-- Witness for C9 at the scenario alert: the single index entry's key is
six digits with a non-empty bucket, and the non-six-digit string `61`
finds nothing. -/
theorem zone_index_keys_sixdigits_witness :
    (isSixDigits "614102" = true ∧ [alertA, alertA] ≠ ([] : List CacheAlert))
    ∧ mapGet (buildIndexes [alertA]) "61" = none := by
  constructor
  · refine (zone_index_keys_sixdigits [alertA]).1 ("614102", [alertA, alertA]) ?_
    rw [show buildIndexes [alertA] = [("614102", [alertA, alertA])] from rfl]
    exact List.mem_singleton_self _
  · exact (zone_index_keys_sixdigits [alertA]).2 "61" (by rfl)

/-- C4: every CAP element that may legally repeat is normalized to an
ordered sequence: `asArray` sends an absent value to `[]`, a bare scalar to
a one-element list and an array to itself in document order, and the parser
applies exactly this normalization at info, category, responseType,
parameter, eventCode, area, polygon, circle and geocode, so no downstream
consumer receives a bare scalar for these fields. -/
theorem cap_repeat_normalization :
    (asArray .jnull = [])
    ∧ (∀ l : List JVal, asArray (.jarr l) = l)
    ∧ (∀ v : JVal, v.isJNull = false → (∀ l, v ≠ .jarr l) → asArray v = [v])
    ∧ (∀ root : JVal, parseCapXml root
        = (asArray (jOr (root.jGet "alert") (root.jGet "cap:alert"))).map parseAlertNode)
    ∧ (∀ alert : JVal, (parseAlertNode alert).info
        = (asArray (alert.jGet "info")).map parseInfoNode)
    ∧ (∀ info : JVal,
        (parseInfoNode info).category = jToStringList (asArray (info.jGet "category"))
        ∧ (parseInfoNode info).responseType = jToStringList (asArray (info.jGet "responseType"))
        ∧ (parseInfoNode info).parameters = (asArray (info.jGet "parameter")).map parseParamNode
        ∧ (parseInfoNode info).eventCode = (asArray (info.jGet "eventCode")).map parseEventCodeNode
        ∧ (parseInfoNode info).areas = (asArray (info.jGet "area")).map parseAreaNode)
    ∧ (∀ a : JVal,
        (parseAreaNode a).polygons = jToStringList (asArray (a.jGet "polygon"))
        ∧ (parseAreaNode a).circles = jToStringList (asArray (a.jGet "circle"))
        ∧ (parseAreaNode a).geocodes = (asArray (a.jGet "geocode")).map parseGeocode)
    ∧ (∀ (info : JVal) (s : String), info.jGet "category" = .jstr s →
        (parseInfoNode info).category = [s])
    ∧ (∀ info : JVal, info.jGet "category" = .jnull → (parseInfoNode info).category = [])
    ∧ (∀ (info : JVal) (l : List JVal), info.jGet "category" = .jarr l →
        (parseInfoNode info).category = jToStringList l) := by
  refine ⟨rfl, fun l => rfl, ?_, fun root => rfl, fun alert => rfl,
    fun info => ⟨rfl, rfl, rfl, rfl, rfl⟩, fun a => ⟨rfl, rfl, rfl⟩, ?_, ?_, ?_⟩
  · intro v h1 h2
    cases v with
    | jnull => simp [isJNull] at h1
    | jarr l => exact absurd rfl (h2 l)
    | jbool b => rfl
    | jnum n => rfl
    | jstr s => rfl
    | jobj fs => rfl
  · intro info s h
    simp [parseInfoNode, h, asArray, jToStringList, jToString]
  · intro info h
    simp [parseInfoNode, h, asArray, jToStringList]
  · intro info l h
    simp [parseInfoNode, h, asArray]

/-- Witness for C4: a bare scalar category yields the one-element
sequence. -/
theorem cap_repeat_normalization_witness :
    asArray (.jstr "Met") = [.jstr "Met"]
    ∧ (parseInfoNode (.jobj [("category", .jstr "Met")])).category = ["Met"] :=
  ⟨cap_repeat_normalization.2.2.1 (.jstr "Met") rfl (fun _ h => JVal.noConfusion h),
   cap_repeat_normalization.2.2.2.2.2.2.2.1 (.jobj [("category", .jstr "Met")]) "Met" rfl⟩

/-- C10: in the raw-document fallback every parsed alert is included in the
response regardless of whether it matches the requested zone; alerts with a
geocode value containing the zone carry `matched_by = 'geocode'` and all
other alerts are still included with `matched_by = null` (modelled as
`some none`: property present, value null). -/
theorem raw_fallback_includes_all (root : JVal) (xml zona : String) :
    (avisosRaw root xml zona).length = (parseCapXml root).length
    ∧ (∀ pa ∈ parseCapXml root, rawAviso xml zona pa ∈ avisosRaw root xml zona)
    ∧ (∀ pa : ParsedAlert, alertHasZonaByGeocode pa zona = true →
        (rawAviso xml zona pa).matched_by = some (some "geocode"))
    ∧ (∀ pa : ParsedAlert, alertHasZonaByGeocode pa zona = false →
        (rawAviso xml zona pa).matched_by = some none)
    ∧ (∀ av ∈ avisosRaw root xml zona,
        av.matched_by = some (some "geocode") ∨ av.matched_by = some none) := by
  refine ⟨List.length_map _ _, fun pa hpa => List.mem_map_of_mem _ hpa, ?_, ?_, ?_⟩
  · intro pa h
    simp [rawAviso, h]
  · intro pa h
    simp [rawAviso, h]
  · intro av hav
    rcases List.mem_map.mp hav with ⟨pa, _, rfl⟩
    by_cases h : alertHasZonaByGeocode pa zona
    · exact Or.inl (by simp [rawAviso, h])
    · exact Or.inr (by simp [rawAviso, h])

/-- Witness for C10: the scenario document's single alert is included in
the raw-document response. -/
theorem raw_fallback_includes_all_witness :
    rawAviso capXmlText "614102" (parseAlertNode (capRoot.jGet "alert"))
      ∈ avisosRaw capRoot capXmlText "614102" := by
  refine (raw_fallback_includes_all capRoot capXmlText "614102").2.1 _ ?_
  rw [show parseCapXml capRoot = [parseAlertNode (capRoot.jGet "alert")] from rfl]
  exact List.mem_singleton_self _

/-- C7: with a Latin-1/ISO-8859 content-type hint the bytes are decoded as
Latin-1 unconditionally; without it the candidate with strictly fewer
replacement characters wins and ties go to UTF-8; Latin-1 decoding of any
byte buffer never produces a replacement character, and for the concrete
Latin-1 bytes of `año` (which are invalid UTF-8) the UTF-8 candidate has a
replacement character, so the Latin-1 decoding is selected. -/
theorem smart_decoding_heuristic (bytes : List Nat) (ct : String)
    (hb : ∀ x ∈ bytes, x < 256) :
    (hintIsLatin ct = true → smartDecodeText bytes ct = stripBom (decodeLatin1 bytes))
    ∧ (hintIsLatin ct = false →
        countFFFD (decodeLatin1 bytes) < countFFFD (decodeUtf8 bytes) →
        smartDecodeText bytes ct = stripBom (decodeLatin1 bytes))
    ∧ (hintIsLatin ct = false →
        countFFFD (decodeUtf8 bytes) ≤ countFFFD (decodeLatin1 bytes) →
        smartDecodeText bytes ct = stripBom (decodeUtf8 bytes))
    ∧ countFFFD (decodeLatin1 bytes) = 0
    ∧ (countFFFD (decodeLatin1 [0x61, 0xF1, 0x6F]) < countFFFD (decodeUtf8 [0x61, 0xF1, 0x6F])
        ∧ smartDecodeText [0x61, 0xF1, 0x6F] "application/json"
            = stripBom (decodeLatin1 [0x61, 0xF1, 0x6F])) := by
  refine ⟨?_, ?_, ?_, ?_, by decide, by rfl⟩
  · intro h
    simp [smartDecodeText, h]
  · intro h hlt
    simp [smartDecodeText, h, hlt]
  · intro h hle
    simp [smartDecodeText, h, Nat.not_lt.mpr hle]
  · have hnot : (0xFFFD : Nat) ∉ bytes := by
      intro hmem
      have := hb _ hmem
      omega
    simpa [countFFFD, decodeLatin1] using List.count_eq_zero.mpr hnot

/-- Witness for C7 at the `año` bytes with a JSON content type. -/
theorem smart_decoding_heuristic_witness :
    countFFFD (decodeLatin1 [0x61, 0xF1, 0x6F]) = 0 :=
  (smart_decoding_heuristic [0x61, 0xF1, 0x6F] "application/json" (by decide)).2.2.2.1

/-- C1: when at least one entry matches the requested valid zone code by
file name with an `.xml` suffix, the response is exactly the alerts parsed
from the filename-matched entries, every name-matching inventory record is
marked `'file_name'`, and the geocode strategy is not applied (the
inventory is the untouched per-entry map and the alerts come from the
filename branch alone); scenario: the single-entry 614102 bundle yields
exactly one alert with the entry marked `'file_name'`. -/
theorem avisos_filename_precedence (entries : List TarEntry) (zona : String)
    (hz : isSixDigits zona = true)
    (e0 : TarEntry) (he0 : e0 ∈ entries)
    (hn : fileMatchesZonaByName e0.name zona = true)
    (hx : strEndsWith (strToLower e0.name) ".xml" = true) :
    ((avisosTar entries zona).2
        = (objetivosOf entries zona).flatMap fun e => (parseCapXml e.root).map (tarAviso e))
    ∧ ((avisosTar entries zona).1 = entries.map (tarFichero zona))
    ∧ (∀ f ∈ (avisosTar entries zona).1,
        fileMatchesZonaByName f.name zona = true → f.matched_by = some "file_name")
    ∧ ((avisosTar [scenarioEntry] "614102").2
        = [tarAviso scenarioEntry (parseAlertNode (capRoot.jGet "alert"))])
    ∧ ((avisosTar [scenarioEntry] "614102").1.map Fichero.matched_by = [some "file_name"]) := by
  have hmem : e0 ∈ objetivosOf entries zona :=
    List.mem_filter.mpr ⟨he0, by simp [hn, hx]⟩
  have hne : (objetivosOf entries zona).isEmpty = false := by
    cases hcase : (objetivosOf entries zona).isEmpty
    · rfl
    · rw [List.isEmpty_iff.mp hcase] at hmem
      exact absurd hmem (List.not_mem_nil e0)
  refine ⟨?_, ?_, ?_, by rfl, by rfl⟩
  · rw [avisosTar_nonempty_eq entries zona hne]
  · rw [avisosTar_nonempty_eq entries zona hne]
  · intro f hf hm
    exact (avisosTar_marker_iff entries zona f hf).mpr hm

/-- Witness for C1 at the scenario bundle. -/
theorem avisos_filename_precedence_witness :
    ((avisosTar [scenarioEntry] "614102").2
        = [tarAviso scenarioEntry (parseAlertNode (capRoot.jGet "alert"))])
    ∧ ((avisosTar [scenarioEntry] "614102").1.map Fichero.matched_by = [some "file_name"]) := by
  have h := avisos_filename_precedence [scenarioEntry] "614102" (by rfl) scenarioEntry
    (List.mem_singleton_self scenarioEntry) (by rfl) (by rfl)
  exact ⟨h.2.2.2.1, h.2.2.2.2⟩

/-- C8 counterexample: in a bundle whose only entry is the non-XML file
`614102.txt`, that entry is recorded in the inventory with
`matched_by = 'file_name'` although its name does not end in `.xml` — the
marker is set on the name-substring test alone. -/
theorem filename_marker_counterexample :
    ({ name := "614102.txt", size := 3, sha1 := "d0b425e0", matched_by := some "file_name" } : Fichero)
      ∈ (avisosTar [txtEntry] "614102").1
    ∧ strEndsWith (strToLower "614102.txt") ".xml" = false := by
  constructor
  · rw [show (avisosTar [txtEntry] "614102").1
      = [{ name := "614102.txt", size := 3, sha1 := "d0b425e0", matched_by := some "file_name" }] from rfl]
    exact List.mem_singleton_self _
  · rfl

/-- C8 amended: only `.xml`-suffixed entries are eligible for selection by
the filename strategy — every alert the filename branch returns comes from
an entry that both contains the zone code and ends in `.xml` — but the
inventory's `'file_name'` marker records the name-substring test alone:
every record marked `'file_name'` has a name containing the zone code,
whether or not it ends in `.xml`. -/
theorem filename_marker_amended (entries : List TarEntry) (zona : String)
    (hne : (objetivosOf entries zona).isEmpty = false) :
    (∀ av ∈ (avisosTar entries zona).2, ∃ e ∈ entries,
        av.file = e.name ∧ fileMatchesZonaByName e.name zona = true
          ∧ strEndsWith (strToLower e.name) ".xml" = true)
    ∧ (∀ f ∈ (avisosTar entries zona).1,
        f.matched_by = some "file_name" → fileMatchesZonaByName f.name zona = true) := by
  constructor
  · intro av hav
    rw [avisosTar_nonempty_eq entries zona hne] at hav
    rcases List.mem_flatMap.mp hav with ⟨e, he, hav2⟩
    rcases List.mem_map.mp hav2 with ⟨pa, _, rfl⟩
    have he' := List.mem_filter.mp he
    have hpred := he'.2
    rw [Bool.and_eq_true] at hpred
    exact ⟨e, he'.1, rfl, hpred.1, hpred.2⟩
  · intro f hf hm
    exact (avisosTar_marker_iff entries zona f hf).mp hm

/-- Witness for the amended C8 at the scenario bundle. -/
theorem filename_marker_amended_witness :
    fileMatchesZonaByName (tarFichero "614102" scenarioEntry).name "614102" = true := by
  refine (filename_marker_amended [scenarioEntry] "614102" (by rfl)).2
    (tarFichero "614102" scenarioEntry) ?_ (by rfl)
  rw [show (avisosTar [scenarioEntry] "614102").1 = [tarFichero "614102" scenarioEntry] from rfl]
  exact List.mem_singleton_self _

/-- C2 evaluated at its failing input: with a configured API key and a
single area whose discovery call fails with HTTP 401 (zero areas produce
anything), `refreshCache` reports success instead of raising, commits a
fresh snapshot with an empty alert list and a new generation timestamp,
and replaces both the current and the last-known-good snapshots of the
prior state. -/
theorem refresh_total_failure_replaces_cache :
    ((refreshCache "valid-key" ["61"] fetchFail "2025-06-02T00:00:00Z" st1).1
        = .ok { areasTried := 1, filesCount := 1, alertsCount := 0 })
    ∧ (refreshCache "valid-key" ["61"] fetchFail "2025-06-02T00:00:00Z" st1).2.cache.generatedAt
        = some "2025-06-02T00:00:00Z"
    ∧ st1.cache.generatedAt = some "2025-06-01T00:00:00Z"
    ∧ (refreshCache "valid-key" ["61"] fetchFail "2025-06-02T00:00:00Z" st1).2.cache.alerts = []
    ∧ st1.cache.alerts = [alert61]
    ∧ (refreshCache "valid-key" ["61"] fetchFail "2025-06-02T00:00:00Z" st1).2.lastGoodCache
        = some (refreshCache "valid-key" ["61"] fetchFail "2025-06-02T00:00:00Z" st1).2.cache
    ∧ (refreshCache "valid-key" ["61"] fetchFail "2025-06-02T00:00:00Z" st1).2.cache.files
        = [{ area := "61", name := "[ERROR]", size := 0, sha1 := none
           , error := some "HTTP 401 en https://opendata.aemet.es/opendata/api/avisos_cap/ultimoelaborado/area/61" }] :=
  ⟨rfl, rfl, rfl, rfl, rfl, rfl, rfl⟩

/-- C5 counterexample: after the successful refresh that produced `st1`, a
refresh attempt that raises leaves the state untouched; the query then
still returns the cached alert (count 1) and the successful refresh's
generation timestamp, but the response object has exactly the keys
`query`, `count`, `avisos` — reading `stale` yields `undefined`, so the
response does not report `stale = true`. -/
theorem query_no_stale_counterexample :
    ((refreshCache "valid-key" ["61"] fetchOk61 "2025-06-01T00:00:00Z" st0).1
        = .ok { areasTried := 1, filesCount := 1, alertsCount := 1 })
    ∧ (refreshCache "" ["61"] fetchOk61 "2025-06-02T00:00:00Z" st1).1
        = .error "Falta AEMET_API_KEY en variables de entorno."
    ∧ (refreshCache "" ["61"] fetchOk61 "2025-06-02T00:00:00Z" st1).2 = st1
    ∧ ((avisosQuery "614102" st1).1.map
        (fun resp => (resp.jGet "count", (resp.jGet "query").jGet "last_success_at", resp.jGet "stale")))
        = .ok (.jnum 1, .jstr "2025-06-01T00:00:00Z", .jnull)
    ∧ ((avisosQuery "614102" st1).1.map
        (fun resp => match resp with | .jobj fields => fields.map Prod.fst | _ => []))
        = .ok ["query", "count", "avisos"] :=
  ⟨rfl, rfl, rfl, rfl, rfl⟩

/-- C5 amended: after a successful refresh, a refresh attempt that raises
(the API key check fails before any work) leaves both snapshots untouched,
and a subsequent query still returns the alerts of the successful refresh
and reports that snapshot's generation timestamp as `last_success_at`; the
query response is exactly `{ query: { zona, last_success_at }, count,
avisos }` and carries no staleness flag (a stale flag appears only in the
refresh endpoint's error reply). -/
theorem query_after_failed_refresh_amended (st : ServerState) (areas : List String)
    (fetchArea : String → Except String AreaResult) (now zona ts : String)
    (hz : isSixDigits zona = true)
    (hgen : st.cache.generatedAt = some ts) :
    ((refreshCache "" areas fetchArea now st).1
        = .error "Falta AEMET_API_KEY en variables de entorno.")
    ∧ (refreshCache "" areas fetchArea now st).2 = st
    ∧ (avisosQuery zona (refreshCache "" areas fetchArea now st).2).1
        = .ok (.jobj
            [ ("query", .jobj [("zona", .jstr zona), ("last_success_at", .jstr ts)])
            , ("count", .jnum ((mapGet st.cache.byZona zona).getD []).length)
            , ("avisos", .jarr (((mapGet st.cache.byZona zona).getD []).map cacheAlertJ)) ]) := by
  refine ⟨rfl, rfl, ?_⟩
  have hz' : (!isSixDigits zona) = false := by simp [hz]
  show (avisosQuery zona st).1 = _
  simp [avisosQuery, hz', hgen, optStrJ]

/-- Witness for the amended C5 at the concrete state after the successful
refresh of area 61. -/
theorem query_after_failed_refresh_amended_witness :
    (refreshCache "" ["61"] fetchOk61 "2025-06-02T00:00:00Z" st1).2 = st1 :=
  (query_after_failed_refresh_amended st1 ["61"] fetchOk61 "2025-06-02T00:00:00Z"
    "614102" "2025-06-01T00:00:00Z" (by rfl) (by rfl)).2.1

/-- C6: with a configured API key, a multi-area refresh isolates per-area
failures: the result is reported as success with `areasTried` equal to the
number of configured areas, the committed inventory and alert list are the
concatenation of each area's contribution (an `[ERROR]`-marked entry for a
failed area, its own files and alerts for a successful one), and every
failed area's error entry is present; scenario: areas 61 (discovery
non-2xx) and 62 (3 alerts) give `areasTried = 2`, an error entry for 61
and 3 aggregated alerts. -/
theorem refresh_failure_isolation (apiKey : String) (areas : List String)
    (fetchArea : String → Except String AreaResult) (now : String) (st : ServerState)
    (hk : apiKey.isEmpty = false) :
    ((refreshCache apiKey areas fetchArea now st).1
        = .ok { areasTried := areas.length
              , filesCount := (areas.flatMap (areaFiles fetchArea)).length
              , alertsCount := (areas.flatMap (areaAlerts fetchArea)).length })
    ∧ (refreshCache apiKey areas fetchArea now st).2.cache.files
        = areas.flatMap (areaFiles fetchArea)
    ∧ (refreshCache apiKey areas fetchArea now st).2.cache.alerts
        = areas.flatMap (areaAlerts fetchArea)
    ∧ (∀ area ∈ areas, ∀ e : String, fetchArea area = .error e →
        ({ area := area, name := "[ERROR]", size := 0, sha1 := none, error := some e } : CacheFile)
          ∈ (refreshCache apiKey areas fetchArea now st).2.cache.files)
    ∧ ((refreshCache "valid-key" ["61", "62"] fetchScenario "2025-06-01T00:00:00Z" st0).1
        = .ok { areasTried := 2, filesCount := 4, alertsCount := 3 })
    ∧ ({ area := "61", name := "[ERROR]", size := 0, sha1 := none
       , error := some "HTTP 404 en https://opendata.aemet.es/opendata/api/avisos_cap/ultimoelaborado/area/61" } : CacheFile)
        ∈ (refreshCache "valid-key" ["61", "62"] fetchScenario "2025-06-01T00:00:00Z" st0).2.cache.files := by
  have hfold : areas.foldl (refreshStep fetchArea) ([], [])
      = (areas.flatMap (areaFiles fetchArea), areas.flatMap (areaAlerts fetchArea)) := by
    simpa using refresh_foldl_eq fetchArea areas ([], [])
  refine ⟨?_, ?_, ?_, ?_, by rfl, ?_⟩
  · simp [refreshCache, hk, hfold]
  · simp [refreshCache, hk, hfold]
  · simp [refreshCache, hk, hfold]
  · intro area ha e he
    have hmem : ({ area := area, name := "[ERROR]", size := 0, sha1 := none, error := some e } : CacheFile)
        ∈ areaFiles fetchArea area := by
      simp [areaFiles, he]
    simp only [refreshCache, hk, Bool.false_eq_true, if_false, hfold]
    exact List.mem_flatMap.mpr ⟨area, ha, hmem⟩
  · rw [show (refreshCache "valid-key" ["61", "62"] fetchScenario "2025-06-01T00:00:00Z" st0).2.cache.files
      = ({ area := "61", name := "[ERROR]", size := 0, sha1 := none
         , error := some "HTTP 404 en https://opendata.aemet.es/opendata/api/avisos_cap/ultimoelaborado/area/61" } : CacheFile)
          :: area62Files from rfl]
    exact List.mem_cons_self _ _

/-- Witness for C6 at the two-area scenario. -/
theorem refresh_failure_isolation_witness :
    (refreshCache "valid-key" ["61", "62"] fetchScenario "2025-06-01T00:00:00Z" st0).1
      = .ok { areasTried := 2, filesCount := 4, alertsCount := 3 } :=
  (refresh_failure_isolation "valid-key" ["61", "62"] fetchScenario "2025-06-01T00:00:00Z" st0
    (by rfl)).2.2.2.2.1

end Aemet
